import Mathlib

/-!
Verification of the bias / hate-speech analysis backend
(`backend/llm_analyzer.py` and `backend/hate_speech_api.py`).

Strings are modelled as `List Char`; character classes (`\w`, `\s`, case
folding) are modelled at the ASCII level, which matches every input used in
the theorems below.  Python `str.find` is modelled by `pyFind?` (with the
`-1` sentinel recovered where the source checks for it), slicing by
`pySlice`, `str.strip` by `pyStrip`, `str.lower` by `pyLower`, `str.split()`
by `pyTokens`, and `re.findall(r"\w+", s)` together with the parallel
`finditer` start positions by `wordTokens`.  All definitions are structural
so that concrete instances evaluate by kernel reduction.
-/

/-- Python whitespace class `\s` (ASCII part). -/
def isSpace (c : Char) : Bool :=
  c = ' ' || c = '\t' || c = '\n' || c = '\r' || c = '\x0b' || c = '\x0c'

/-- Python word-character class `\w` (ASCII part): alphanumeric or underscore. -/
def isWordChar (c : Char) : Bool :=
  c.isAlpha || c.isDigit || c = '_'

/-- Python `str.lower`, character-wise. -/
def pyLower (s : List Char) : List Char :=
  s.map Char.toLower

/-- Python `str.strip`: drop leading and trailing whitespace. -/
def pyStrip (s : List Char) : List Char :=
  ((s.dropWhile isSpace).reverse.dropWhile isSpace).reverse

/-- Python `s.strip().lower()`, the comparison key used in `_parse_response`. -/
def pyStripLower (s : List Char) : List Char :=
  pyLower (pyStrip s)

/-- Helper for `pyTokens`: scan characters, carrying the reversed current
run of non-whitespace characters when inside one. -/
def pyTokensAux : List Char → Option (List Char) → List (List Char)
  | [], none => []
  | [], some run => [run.reverse]
  | c :: rest, none =>
    if isSpace c then pyTokensAux rest none else pyTokensAux rest (some [c])
  | c :: rest, some run =>
    if isSpace c then run.reverse :: pyTokensAux rest none
    else pyTokensAux rest (some (c :: run))

/-- Python `str.split()`: maximal runs of non-whitespace characters. -/
def pyTokens (s : List Char) : List (List Char) :=
  pyTokensAux s none

/-- Python `haystack.find(needle)`: the least index at which `needle` occurs,
`none` standing for the `-1` sentinel.  Like Python, the empty needle is
found at index 0. -/
def pyFind? : List Char → List Char → Option Nat
  | [], needle => if needle.isPrefixOf [] then some 0 else none
  | c :: t, needle =>
    if needle.isPrefixOf (c :: t) then some 0
    else (pyFind? t needle).map (· + 1)

/-- Python `s[a:b]` for the non-negative indices produced by the localizer. -/
def pySlice (s : List Char) (a b : Int) : List Char :=
  (s.drop a.toNat).take (b.toNat - a.toNat)

/-- Helper for `wordTokens`: scan characters with their position, carrying
the start position and reversed characters of the current `\w+` run. -/
def wordTokensAux : List Char → Nat → Option (Nat × List Char) → List (Nat × List Char)
  | [], _, none => []
  | [], _, some (st, run) => [(st, run.reverse)]
  | c :: rest, i, none =>
    if isWordChar c then wordTokensAux rest (i + 1) (some (i, [c]))
    else wordTokensAux rest (i + 1) none
  | c :: rest, i, some (st, run) =>
    if isWordChar c then wordTokensAux rest (i + 1) (some (st, c :: run))
    else (st, run.reverse) :: wordTokensAux rest (i + 1) none

/-- `re.finditer(r"\w+", s)`: the list of (match start, matched token)
pairs, in order. -/
def wordTokens (s : List Char) : List (Nat × List Char) :=
  wordTokensAux s 0 none

/-- `re.findall(r"\w+", s)`: the word tokens of `s`, without positions. -/
def py_findall_words (s : List Char) : List (List Char) :=
  (wordTokens s).map Prod.snd

/-- The `word_starts` list built in strategy 3 of `_find_text_span`: the
start position of every `\w+` match in `s`. -/
def word_starts_of (s : List Char) : List Nat :=
  (wordTokens s).map Prod.fst

/-- The length of the longest common prefix of two character lists; this is
the value of the inner `while` loop of `longest_common_substring`. -/
def commonPrefixLen : List Char → List Char → Nat
  | a :: as, b :: bs => if a = b then commonPrefixLen as bs + 1 else 0
  | _, _ => 0

/-- `longest_common_substring(s1, s2)` from `_find_text_span` strategy 4:
lowercase both strings, scan all pairs `(i, j)` in order, and keep the first
strictly longest common contiguous run.  Returns
`(best_s1_start, best_s2_start, longest_length)`. -/
def longest_common_substring (s1 s2 : List Char) : Nat × Nat × Nat :=
  let s1l := pyLower s1
  let s2l := pyLower s2
  (List.range s1l.length).foldl
    (fun acc i =>
      (List.range s2l.length).foldl
        (fun acc j =>
          let len := commonPrefixLen (s1l.drop i) (s2l.drop j)
          if acc.2.2 < len then (i, j, len) else acc)
        acc)
    (0, 0, 0)

/-- Strategy 4 of `_find_text_span` (fuzzy fallback): accept the longest
common substring iff its length is at least `min 4 (len(text_span) / 2)`,
mirroring the source line
`if length >= min(4, len(text_span) // 2)`. -/
def strategy4 (original_text text_span : List Char) : Int × Int :=
  let r := longest_common_substring original_text text_span
  if min 4 (text_span.length / 2) ≤ r.2.2 then
    ((r.1 : Int), ((r.1 + r.2.2 : Nat) : Int))
  else (-1, -1)

/-- Strategy 3 of `_find_text_span` (token-anchored match), falling through
to `strategy4` when the first word of the span does not occur among the
document word tokens (the `ValueError` path) or the index bound check fails. -/
def strategy3 (original_text text_span : List Char) : Int × Int :=
  match py_findall_words (pyLower text_span) with
  | [] => (-1, -1)
  | w :: ws =>
    match (py_findall_words (pyLower original_text)).findIdx? (· == w) with
    | none => strategy4 original_text text_span
    | some first_word_index =>
      match (word_starts_of (pyLower original_text))[first_word_index]? with
      | none => strategy4 original_text text_span
      | some start_char =>
        match ws with
        | _ :: _ =>
          let last_word := ws.getLastD w
          match pyFind? ((pyLower original_text).drop start_char) last_word with
          | some p =>
            ((start_char : Int), ((start_char + p + last_word.length : Nat) : Int))
          | none =>
            ((start_char : Int),
              ((min (start_char + text_span.length) original_text.length : Nat) : Int))
        | [] =>
          ((start_char : Int),
            ((min (start_char + text_span.length) original_text.length : Nat) : Int))

/-- `LLMBiasAnalyzer._find_text_span(original_text, text_span)`: the span
localizer.  Returns `(-1, -1)` for NOT_FOUND, otherwise a half-open
character range. -/
def find_text_span (original_text text_span : List Char) : Int × Int :=
  if text_span = [] ∨ original_text = [] then (-1, -1)
  else
    match pyFind? original_text text_span with
    | some i => ((i : Int), ((i + text_span.length : Nat) : Int))
    | none =>
      match pyFind? (pyLower original_text) (pyLower text_span) with
      | some i => ((i : Int), ((i + text_span.length : Nat) : Int))
      | none => strategy3 original_text text_span

/-- The fixed category taxonomy `LLMBiasAnalyzer.bias_categories`. -/
def bias_categories : List (List Char) :=
  ["Race / Ethnicity".data, "Gender / Gender Identity".data, "Age".data,
   "Religion / Belief System".data, "Sexual Orientation".data,
   "Socioeconomic Status".data, "Nationality / Immigration Status".data,
   "Disability".data, "Education Level".data, "Political Ideology".data,
   "Physical Appearance".data]

/-- One entry of the `bias_instances` array of the decoded upstream JSON,
with the dictionary defaults of `_parse_response` already applied. -/
structure RawInstance where
  text_span : List Char
  category : List Char
  explanation : List Char
  suggested_revision : List Char
deriving DecidableEq

/-- The `BiasSpan` record emitted by `_parse_response`. -/
structure BiasSpan where
  text : List Char
  category : List Char
  explanation : List Char
  suggested_revision : List Char
  start_index : Int
  end_index : Int
deriving DecidableEq

/-- The per-instance body of the loop in `_parse_response`: locate the
reported span, skip it when the localizer reports NOT_FOUND (`start == -1`),
validate the category, and choose the matched-text label by comparing the
actual document slice with the reported phrase after `strip().lower()`. -/
def process_instance (original_text : List Char) (inst : RawInstance) : Option BiasSpan :=
  let r := find_text_span original_text inst.text_span
  if r.1 = -1 then none
  else
    let category := if inst.category ∈ bias_categories then inst.category else "Other".data
    let actual_text := pySlice original_text r.1 r.2
    let text_to_use :=
      if pyStripLower actual_text = pyStripLower inst.text_span then actual_text
      else inst.text_span
    some { text := text_to_use, category := category, explanation := inst.explanation,
           suggested_revision := inst.suggested_revision,
           start_index := r.1, end_index := r.2 }

/-- Outcome of decoding the generative backend response.  The JSON decoding
itself (`json.loads` after stripping code fences) is a standard-library
capability; it is modelled by its outcome: either a malformed payload (the
`json.JSONDecodeError` / generic exception paths) or a decoded list of
instances. -/
inductive UpstreamParse where
  | malformed
  | parsed (instances : List RawInstance)

/-- `LLMBiasAnalyzer._parse_response`: a malformed payload yields zero
findings; a decoded payload is processed instance by instance, dropping the
ones the localizer cannot place. -/
def parse_response (resp : UpstreamParse) (original_text : List Char) : List BiasSpan :=
  match resp with
  | .malformed => []
  | .parsed instances => instances.filterMap (process_instance original_text)

/-- The summary dictionary built by `LLMBiasAnalyzer._generate_summary`.
The `categories_detected` entry (built from a Python `set`, whose iteration
order is not specified) is omitted; no claim concerns it. -/
structure LlmSummary where
  total_bias_instances : Nat
  risk_level : String
  overall_assessment : String
  text_length : Nat
  bias_density : ℚ
deriving DecidableEq

/-- `LLMBiasAnalyzer._generate_summary(bias_spans, text)`. -/
def generate_summary (bias_spans : List BiasSpan) (text : List Char) : LlmSummary :=
  let total := bias_spans.length
  { total_bias_instances := total
    risk_level := if total = 0 then "Low" else if total ≤ 2 then "Medium" else "High"
    overall_assessment :=
      if total = 0 then "No bias detected"
      else if total ≤ 2 then
        "Minor bias detected (" ++ toString total ++ " instance" ++
          (if 1 < total then "s" else "") ++ ")"
      else "Multiple bias instances detected (" ++ toString total ++ " instances)"
    text_length := text.length
    bias_density := (total : ℚ) / (max (pyTokens text).length 1 : ℚ) }

/-- The summary dictionary built inside `analyze_hate_speech`
(`hate_speech_api.py`), as a function of the clause count, the flagged
count and the confidence threshold.  The float constant `0.5` and the float
comparisons are exact at these magnitudes and are modelled over `ℚ`. -/
structure HateSpeechSummary where
  total_clauses_analyzed : Nat
  hate_speech_clauses_found : Nat
  hate_speech_percentage : ℚ
  confidence_threshold_used : ℚ
  overall_assessment : String
  risk_level : String
deriving DecidableEq

/-- The `summary` value of `analyze_hate_speech`. -/
def hate_speech_summary (total_clauses hate_speech_count : Nat) (threshold : ℚ) :
    HateSpeechSummary :=
  { total_clauses_analyzed := total_clauses
    hate_speech_clauses_found := hate_speech_count
    hate_speech_percentage :=
      if 0 < total_clauses then (hate_speech_count : ℚ) / (total_clauses : ℚ) * 100 else 0
    confidence_threshold_used := threshold
    overall_assessment :=
      if 0 < hate_speech_count then "Contains hate speech" else "No hate speech detected"
    risk_level :=
      if (total_clauses : ℚ) * (1 / 2) < (hate_speech_count : ℚ) then "High"
      else if 0 < hate_speech_count then "Medium"
      else "Low" }

/-- The flagging decision of `analyze_clause_for_hate_speech`
(`hate_speech_api.py`).  The external BERT forward pass and softmax are
modelled by their output, an exact two-class probability vector
`(p_normal, p_hate)`; `torch.argmax` over the logits selects the hate class
(index 1) exactly when `p_normal < p_hate`, softmax being strictly
monotone, with ties resolved to index 0.  The clause is flagged iff the
predicted class is 1 and `hate_speech_probability >= confidence_threshold`. -/
def analyze_clause_for_hate_speech (p_normal p_hate threshold : ℚ) : Bool :=
  decide (p_normal < p_hate) && decide (threshold ≤ p_hate)

/-- The clause-boundary patterns of `split_text_into_clauses`:
`,\s+(?=\w)` (comma), `;\s*` (semicolon), and `\s+WORD\s+` for each listed
conjunction. -/
inductive ClausePattern where
  | commaWs
  | semi
  | conj (w : List Char)

/-- The ordered `clause_patterns` list of `split_text_into_clauses`. -/
def clause_patterns : List ClausePattern :=
  [.commaWs, .semi, .conj "and".data, .conj "but".data, .conj "or".data,
   .conj "because".data, .conj "since".data, .conj "while".data,
   .conj "when".data, .conj "if".data, .conj "although".data,
   .conj "however".data, .conj "therefore".data]

/-- Length of the regex match of a clause pattern at the start of `s`, if
any.  Each pattern starts with a mandatory literal or `\s+`, so a match
always consumes at least one character; greedy `\s+` runs are maximal runs
(shorter runs cannot be followed by the required literal or `\w`). -/
def matchLen? (p : ClausePattern) (s : List Char) : Option Nat :=
  match p with
  | .commaWs =>
    match s with
    | ',' :: rest =>
      let k := (rest.takeWhile isSpace).length
      if 1 ≤ k then
        match (rest.drop k).head? with
        | some c => if isWordChar c then some (1 + k) else none
        | none => none
      else none
    | _ => none
  | .semi =>
    match s with
    | ';' :: rest => some (1 + (rest.takeWhile isSpace).length)
    | _ => none
  | .conj w =>
    let k1 := (s.takeWhile isSpace).length
    if 1 ≤ k1 ∧ w.isPrefixOf (s.drop k1) then
      let k2 := ((s.drop (k1 + w.length)).takeWhile isSpace).length
      if 1 ≤ k2 then some (k1 + w.length + k2) else none
    else none

/-- `re.split(pattern, s)` for the clause patterns: scan left to right,
cutting a piece at each (necessarily non-empty) match.  `skip` counts the
separator characters still to consume; `acc` is the reversed current piece. -/
def pySplitAux (p : ClausePattern) : List Char → List Char → Nat → List (List Char)
  | [], acc, _ => [acc.reverse]
  | _ :: rest, acc, skip + 1 => pySplitAux p rest acc skip
  | c :: rest, acc, 0 =>
    match matchLen? p (c :: rest) with
    | some len => acc.reverse :: pySplitAux p rest [] (len - 1)
    | none => pySplitAux p rest (c :: acc) 0

/-- `re.split(pattern, s)`. -/
def pySplit (p : ClausePattern) (s : List Char) : List (List Char) :=
  pySplitAux p s [] 0

/-- One iteration of the pattern loop of `split_text_into_clauses`: split
every working clause by the pattern, strip the pieces, and drop the empty
ones. -/
def refine_clauses (p : ClausePattern) (clauses : List (List Char)) : List (List Char) :=
  clauses.flatMap (fun c => ((pySplit p c).map pyStrip).filter (fun piece => piece ≠ []))

/-- `split_text_into_clauses(text)` (`hate_speech_api.py`), as a function of
the sentence list produced by the external sentence-boundary detector
(`nltk.sent_tokenize`, an external capability per the interface contract):
refine each sentence through every pattern in order, then keep only clauses
with at least 3 whitespace-delimited tokens. -/
def split_text_into_clauses (sentences : List (List Char)) : List (List Char) :=
  let clauses := sentences.flatMap (fun sentence =>
    clause_patterns.foldl (fun cur p => refine_clauses p cur) [sentence])
  clauses.filter (fun c => 3 ≤ (pyTokens c).length)

/-- The segmentation actually used by `analyze_hate_speech`: the clause list
of `split_text_into_clauses`, falling back to the whole input as a single
unit when that list is empty (`if not clauses: clauses = [text]`). -/
def segment_text (text : List Char) (sentences : List (List Char)) : List (List Char) :=
  let clauses := split_text_into_clauses sentences
  if clauses = [] then [text] else clauses

example : find_text_span "xxabyy".data "abz".data = (2, 4) := by decide
example : find_text_span "xyz".data "q".data = (0, 0) := by decide
example : find_text_span "x ab yy".data "ab??".data = (2, 6) := by decide
example : find_text_span "xabab".data "ab".data = (1, 3) := by decide
example : find_text_span "The OLD MAN walks".data "old  man".data = (4, 11) := by decide
example : find_text_span "abc".data [] = (-1, -1) := by decide

/-- `pyFind?` returns exactly the first index at which the needle occurs. -/
theorem pyFind?_first_occurrence (s needle : List Char) (i : Nat)
    (hocc : needle <+: s.drop i) (hmin : ∀ j < i, ¬ needle <+: s.drop j) :
    pyFind? s needle = some i := by
  induction s generalizing i with
  | nil =>
    rw [List.drop_nil] at hocc
    have hne : needle = [] := List.prefix_nil.mp hocc
    match i with
    | 0 => simp [pyFind?, hne]
    | i' + 1 =>
      exact absurd (by simp [hne] : needle <+: ([] : List Char).drop 0)
        (hmin 0 (Nat.succ_pos _))
  | cons c t ih =>
    by_cases h0 : needle <+: (c :: t)
    · match i with
      | 0 => simp [pyFind?, List.isPrefixOf_iff_prefix, h0]
      | i' + 1 => exact absurd h0 (hmin 0 (Nat.succ_pos _))
    · match i with
      | 0 => exact absurd hocc h0
      | i' + 1 =>
        have hrec := ih i' (by simpa using hocc)
          (fun j hj => by
            have := hmin (j + 1) (by omega)
            simpa using this)
        simp [pyFind?, List.isPrefixOf_iff_prefix, h0, hrec]

/-- C9: `locate` called with an empty phrase, or on an empty document,
returns NOT_FOUND `(-1, -1)`, even though the empty string is trivially an
exact substring of every document: `_find_text_span` guards
`if not text_span or not original_text` before any strategy runs. -/
theorem C9_empty_phrase_or_document (doc phrase : List Char) :
    find_text_span doc [] = (-1, -1) ∧ find_text_span [] phrase = (-1, -1) := by
  constructor <;> simp [find_text_span]

/-- C8: when the structured output of the generative backend cannot be
decoded (the `json.JSONDecodeError` / generic exception paths of
`_parse_response`), the analysis degrades to zero findings instead of
raising. -/
theorem C8_malformed_upstream_yields_zero_findings (doc : List Char) :
    parse_response .malformed doc = [] := rfl

/-- C5 (amended: the phrase must be non-empty; see the counterexample for
the empty phrase): when a non-empty phrase occurs exactly at first position
`i` of the document, `locate` returns `(i, i + len(phrase))` via strategy 1,
and the document slice at that range is the phrase itself. -/
theorem C5_exact_first_occurrence (doc phrase : List Char) (i : Nat)
    (hp : phrase ≠ []) (hocc : phrase <+: doc.drop i)
    (hmin : ∀ j < i, ¬ phrase <+: doc.drop j) :
    find_text_span doc phrase = ((i : Int), ((i + phrase.length : Nat) : Int))
    ∧ pySlice doc (i : Int) ((i + phrase.length : Nat) : Int) = phrase := by
  have hdoc : doc ≠ [] := by
    intro h
    rw [h, List.drop_nil] at hocc
    exact hp (List.prefix_nil.mp hocc)
  have hfind := pyFind?_first_occurrence doc phrase i hocc hmin
  refine ⟨by simp [find_text_span, hp, hdoc, hfind], ?_⟩
  obtain ⟨r, hr⟩ := hocc
  simp only [pySlice, Int.toNat_natCast, Nat.add_sub_cancel_left]
  rw [← hr]
  exact List.take_left _ _

/-- C5 counterexample: the empty phrase is an exact substring of `"a"`
(first occurrence at offsets `(0, 0)`), yet `locate` returns the NOT_FOUND
sentinel `(-1, -1)` instead of the first-occurrence offsets. -/
theorem C5_empty_phrase_counterexample :
    ([] : List Char) <+: "a".data.drop 0
    ∧ find_text_span "a".data [] = (-1, -1)
    ∧ find_text_span "a".data [] ≠ ((0 : Int), (0 : Int)) := by decide

/-- C5 witness: in `"xabab"` the phrase `"ab"` first occurs at index 1, and
`locate` returns exactly that occurrence. -/
theorem C5_exact_first_occurrence_witness :
    find_text_span "xabab".data "ab".data
        = ((1 : Int), ((1 + "ab".data.length : Nat) : Int))
    ∧ pySlice "xabab".data (1 : Int) ((1 + "ab".data.length : Nat) : Int) = "ab".data :=
  C5_exact_first_occurrence "xabab".data "ab".data 1 (by decide) (by decide) (by decide)

/-- C1 counterexample: on document `"xxabyy"` and phrase `"abz"`, strategies
1 to 3 all fail (shown by the first four conjuncts), so `locate` falls
through to the fuzzy fallback; it returns the span `(2, 4)` of length 2,
strictly shorter than `max 4 (len(phrase) / 2) = 4` — the acceptance
threshold in the source is `min`, not `max`. -/
theorem C1_fuzzy_counterexample :
    pyFind? "xxabyy".data "abz".data = none
    ∧ pyFind? (pyLower "xxabyy".data) (pyLower "abz".data) = none
    ∧ (py_findall_words (pyLower "abz".data)).head? = some "abz".data
    ∧ (py_findall_words (pyLower "xxabyy".data)).findIdx? (· == "abz".data) = none
    ∧ find_text_span "xxabyy".data "abz".data = (2, 4)
    ∧ 4 - 2 < max 4 ("abz".data.length / 2) := by decide

/-- C1 (amended: the acceptance threshold is `min 4 (len(phrase) / 2)`, not
`max`): whenever strategies 1 to 3 fail (exact and case-insensitive search
miss, and the first word of the phrase does not occur among the document
word tokens), `locate` computes the longest common contiguous
case-insensitive substring and returns its span iff its length is at least
`min 4 (len(phrase) / 2)`, reporting NOT_FOUND otherwise. -/
theorem C1_fuzzy_min_threshold (doc phrase : List Char)
    (hdoc : doc ≠ []) (hp : phrase ≠ [])
    (h1 : pyFind? doc phrase = none)
    (h2 : pyFind? (pyLower doc) (pyLower phrase) = none)
    (w : List Char) (ws : List (List Char))
    (hw : py_findall_words (pyLower phrase) = w :: ws)
    (h3 : (py_findall_words (pyLower doc)).findIdx? (· == w) = none) :
    (min 4 (phrase.length / 2) ≤ (longest_common_substring doc phrase).2.2 →
      find_text_span doc phrase =
        (((longest_common_substring doc phrase).1 : Int),
         (((longest_common_substring doc phrase).1 +
            (longest_common_substring doc phrase).2.2 : Nat) : Int)))
    ∧ ((longest_common_substring doc phrase).2.2 < min 4 (phrase.length / 2) →
      find_text_span doc phrase = (-1, -1)) := by
  have hs : find_text_span doc phrase = strategy4 doc phrase := by
    simp [find_text_span, hp, hdoc, h1, h2, strategy3, hw, h3]
  constructor
  · intro hL
    rw [hs]
    simp [strategy4, hL]
  · intro hL
    rw [hs]
    simp [strategy4, Nat.not_le.mpr hL]

/-- C1 witness: on the counterexample input the longest common substring
`"ab"` of length 2 meets the `min` threshold `min 4 1 = 1`, so the fuzzy
fallback returns its span `(2, 4)`. -/
theorem C1_fuzzy_min_threshold_witness :
    find_text_span "xxabyy".data "abz".data = (2, 4) := by
  have h := (C1_fuzzy_min_threshold "xxabyy".data "abz".data (by decide) (by decide)
    (by decide) (by decide) "abz".data [] (by decide) (by decide)).1 (by decide)
  rw [h]
  decide

/-- C7 counterexample: document `"x ab yy"`, single-token phrase `"ab??"`.
Strategies 1 and 2 fail; the anchor token is `"ab"`, of length 2, starting
at position 2 (token index 1).  The claim predicts a span length of
`min(anchor length, min(phrase length, remaining length)) = min 2 (min 4 5)
= 2`, but `locate` returns `(2, 6)`, a span of length 4: the source caps
`len(text_span)` to the document end and never uses the anchor token
length. -/
theorem C7_anchor_length_counterexample :
    pyFind? "x ab yy".data "ab??".data = none
    ∧ pyFind? (pyLower "x ab yy".data) (pyLower "ab??".data) = none
    ∧ py_findall_words (pyLower "ab??".data) = ["ab".data]
    ∧ (wordTokens (pyLower "x ab yy".data))[1]? = some (2, "ab".data)
    ∧ find_text_span "x ab yy".data "ab??".data = (2, 6)
    ∧ 6 - 2 ≠ min "ab".data.length (min "ab??".data.length ("x ab yy".data.length - 2)) := by
  decide

/-- C7 (amended: the span length is the phrase character length capped to
the remaining document length; the anchor token length plays no role): for
a single-token phrase whose token occurs among the document word tokens,
strategy 3 returns the span starting at the anchor token start with length
`min (len(phrase)) (len(document) - start)`. -/
theorem C7_single_token_anchor (doc phrase w : List Char) (k start : Nat)
    (hdoc : doc ≠ []) (hp : phrase ≠ [])
    (h1 : pyFind? doc phrase = none)
    (h2 : pyFind? (pyLower doc) (pyLower phrase) = none)
    (hw : py_findall_words (pyLower phrase) = [w])
    (h3 : (py_findall_words (pyLower doc)).findIdx? (· == w) = some k)
    (h4 : (word_starts_of (pyLower doc))[k]? = some start) :
    find_text_span doc phrase =
      ((start : Int), ((min (start + phrase.length) doc.length : Nat) : Int)) := by
  simp [find_text_span, hp, hdoc, h1, h2, strategy3, hw, h3, h4]

/-- C7 witness: on the counterexample input the amended rule gives the span
`(2, min (2 + 4) 7) = (2, 6)`. -/
theorem C7_single_token_anchor_witness :
    find_text_span "x ab yy".data "ab??".data = (2, 6) := by
  have h := C7_single_token_anchor "x ab yy".data "ab??".data "ab".data 1 2
    (by decide) (by decide) (by decide) (by decide) (by decide) (by decide) (by decide)
  rw [h]
  decide

/-- C4 failing input: document `"xyz"`, reported phrase `"q"`.  No strategy
finds anything (the longest common substring has length 0), yet the fuzzy
acceptance test `0 >= min(4, 1 // 2) = 0` passes, `_find_text_span` returns
`(0, 0)` instead of `(-1, -1)`, and `_parse_response` emits the finding with
the empty document slice `document[0:0]`, violating the non-emptiness
invariant. -/
theorem C4_empty_span_emitted :
    find_text_span "xyz".data "q".data = (0, 0)
    ∧ parse_response (.parsed [⟨"q".data, "Age".data, [], []⟩]) "xyz".data =
        [⟨"q".data, "Age".data, [], [], 0, 0⟩]
    ∧ pySlice "xyz".data 0 0 = [] := by decide

/-- C6: whenever the localizer places a reported phrase at `(s, e)` with
`s != -1`, the emitted finding carries exactly the document-accurate offsets
`(s, e)`; its matched-text label is the actual document slice when slice and
phrase agree after `strip().lower()`, and the originally reported phrase
when they differ. -/
theorem C6_label_consistency (doc : List Char) (inst : RawInstance) (s e : Int)
    (hfind : find_text_span doc inst.text_span = (s, e)) (hs : s ≠ -1) :
    (process_instance doc inst).map (fun sp => (sp.start_index, sp.end_index, sp.text)) =
      some (s, e,
        if pyStripLower (pySlice doc s e) = pyStripLower inst.text_span
        then pySlice doc s e else inst.text_span) := by
  simp [process_instance, hfind, hs]

/-- C6 witness: the phrase `"old  man"` (double space) locates to `(4, 11)`
in `"The OLD MAN walks"`; the slice `"OLD MAN"` differs from the phrase
after `strip().lower()`, so the finding keeps the reported phrase as its
label together with the document-accurate offsets. -/
theorem C6_label_consistency_witness :
    (process_instance "The OLD MAN walks".data
        ⟨"old  man".data, "Age".data, [], []⟩).map
        (fun sp => (sp.start_index, sp.end_index, sp.text)) =
      some (4, 11,
        if pyStripLower (pySlice "The OLD MAN walks".data 4 11)
            = pyStripLower "old  man".data
        then pySlice "The OLD MAN walks".data 4 11 else "old  man".data) :=
  C6_label_consistency "The OLD MAN walks".data ⟨"old  man".data, "Age".data, [], []⟩
    4 11 (by decide) (by decide)

/-- C3: for every non-empty input text and every sentence decomposition
produced by the external sentence-boundary detector, the segmentation used
by `analyze_hate_speech` returns at least one unit; every returned unit is
non-empty with at least 3 whitespace-delimited tokens, or — when no
fragment satisfies the 3-token minimum — the whole input is returned as the
single unit. -/
theorem C3_segmentation_nonempty (text : List Char) (sentences : List (List Char))
    (htext : text ≠ []) :
    segment_text text sentences ≠ []
    ∧ ((∀ u ∈ segment_text text sentences, u ≠ [] ∧ 3 ≤ (pyTokens u).length)
       ∨ segment_text text sentences = [text]) := by
  by_cases h : split_text_into_clauses sentences = []
  · exact ⟨by simp [segment_text, h], Or.inr (by simp [segment_text, h])⟩
  · refine ⟨by simp [segment_text, h], Or.inl ?_⟩
    intro u hu
    rw [show segment_text text sentences = split_text_into_clauses sentences by
      simp [segment_text, h]] at hu
    have h3 : 3 ≤ (pyTokens u).length := by
      have := (List.mem_filter.mp hu).2
      simpa using this
    refine ⟨?_, h3⟩
    intro hnil
    rw [hnil] at h3
    simp [pyTokens, pyTokensAux] at h3

/-- C3 witness: the input `"hi"` has fewer than 3 tokens, so segmentation
falls back to the whole input as the single unit. -/
theorem C3_segmentation_nonempty_witness :
    segment_text "hi".data ["hi".data] ≠ []
    ∧ ((∀ u ∈ segment_text "hi".data ["hi".data], u ≠ [] ∧ 3 ≤ (pyTokens u).length)
       ∨ segment_text "hi".data ["hi".data] = ["hi".data]) :=
  C3_segmentation_nonempty "hi".data ["hi".data] (by decide)

/-- C2 counterexample: 5 findings over a 10-word document satisfy the
claimed `Medium` condition `0 < flagged ∧ flagged ≤ 0.5 × total`, but the
generative-backed aggregator `_generate_summary` reports `High`: it uses
fixed counts (more than 2 findings), not the ratio policy. -/
theorem C2_generative_ratio_counterexample :
    (0 < 5 ∧ (5 : ℚ) ≤ (10 : ℚ) * (1 / 2))
    ∧ (generate_summary
        (List.replicate 5 ⟨"x".data, "Age".data, [], [], 0, 1⟩)
        "a b c d e f g h i j".data).risk_level = "High"
    ∧ ("High" : String) ≠ "Medium" := by
  refine ⟨⟨by norm_num, by norm_num⟩, rfl, by decide⟩

/-- C2 (amended): the ratio policy holds only for the classifier-backed
aggregator in `analyze_hate_speech` — `High` iff flagged > 0.5 × total,
`Medium` iff 0 < flagged ≤ 0.5 × total, `Low` iff flagged = 0 (so 5 of 10
is Medium, 6 of 10 High, 0 Low).  The generative-backed aggregator
`_generate_summary` instead uses fixed counts: `Low` at 0 findings,
`Medium` at 1 or 2, `High` at 3 or more, regardless of unit count. -/
theorem C2_risk_level_policies (c t : Nat) (th : ℚ)
    (spans : List BiasSpan) (text : List Char) :
    ((hate_speech_summary t c th).risk_level = "High" ↔ t < 2 * c)
    ∧ ((hate_speech_summary t c th).risk_level = "Medium" ↔ (0 < c ∧ 2 * c ≤ t))
    ∧ ((hate_speech_summary t c th).risk_level = "Low" ↔ c = 0)
    ∧ ((generate_summary spans text).risk_level = "Low" ↔ spans.length = 0)
    ∧ ((generate_summary spans text).risk_level = "Medium"
        ↔ (1 ≤ spans.length ∧ spans.length ≤ 2))
    ∧ ((generate_summary spans text).risk_level = "High" ↔ 2 < spans.length) := by
  have hkey : ((t : ℚ) * (1 / 2) < (c : ℚ)) ↔ t < 2 * c := by
    rw [← Nat.cast_lt (α := ℚ)]
    push_cast
    constructor <;> intro h <;> linarith
  have hH : (hate_speech_summary t c th).risk_level =
      if t < 2 * c then "High" else if 0 < c then "Medium" else "Low" := by
    simp only [hate_speech_summary]
    by_cases h : t < 2 * c
    · rw [if_pos (hkey.mpr h), if_pos h]
    · rw [if_neg (fun hc => h (hkey.mp hc)), if_neg h]
  refine ⟨?_, ?_, ?_, ?_, ?_, ?_⟩
  · rw [hH]
    split_ifs with h1 h2
    · exact iff_of_true rfl h1
    · exact iff_of_false (by decide) h1
    · exact iff_of_false (by decide) h1
  · rw [hH]
    split_ifs with h1 h2
    · exact iff_of_false (by decide) (fun h => by omega)
    · exact iff_of_true rfl ⟨h2, by omega⟩
    · exact iff_of_false (by decide) (fun h => h2 h.1)
  · rw [hH]
    split_ifs with h1 h2
    · exact iff_of_false (by decide) (by omega)
    · exact iff_of_false (by decide) (by omega)
    · exact iff_of_true rfl (by omega)
  · simp only [generate_summary]
    split_ifs with h1 h2
    · exact iff_of_true rfl h1
    · exact iff_of_false (by decide) h1
    · exact iff_of_false (by decide) h1
  · simp only [generate_summary]
    split_ifs with h1 h2
    · exact iff_of_false (by decide) (by omega)
    · exact iff_of_true rfl ⟨by omega, h2⟩
    · exact iff_of_false (by decide) (fun h => h2 h.2)
  · simp only [generate_summary]
    split_ifs with h1 h2
    · exact iff_of_false (by decide) (by omega)
    · exact iff_of_false (by decide) (by omega)
    · exact iff_of_true rfl (by omega)

/-- C10: the classifier-backed analyzer flags a clause iff the predicted
class is the hate class (softmax probability of the hate class strictly
exceeds that of the other class) and the hate probability is at least the
threshold; since the two probabilities sum to 1, a predicted hate class
entails a hate probability of at least 1/2, so every threshold at or below
1/2 produces the same flagging decision as threshold 1/2. -/
theorem C10_threshold_equivalence (p_normal p_hate t : ℚ)
    (hsum : p_normal + p_hate = 1) :
    (analyze_clause_for_hate_speech p_normal p_hate t = true
      ↔ (p_normal < p_hate ∧ t ≤ p_hate))
    ∧ (p_normal < p_hate → 1 / 2 ≤ p_hate)
    ∧ (t ≤ 1 / 2 →
        analyze_clause_for_hate_speech p_normal p_hate t
          = analyze_clause_for_hate_speech p_normal p_hate (1 / 2)) := by
  have hhalf : p_normal < p_hate → (1 : ℚ) / 2 < p_hate := fun h => by linarith
  refine ⟨by simp [analyze_clause_for_hate_speech], fun h => le_of_lt (hhalf h), fun ht => ?_⟩
  by_cases h : p_normal < p_hate
  · have h1 : t ≤ p_hate := le_trans ht (le_of_lt (hhalf h))
    have h2 : (1 : ℚ) / 2 ≤ p_hate := le_of_lt (hhalf h)
    have h2i : (2 : ℚ)⁻¹ ≤ p_hate := by rw [← one_div]; exact h2
    simp [analyze_clause_for_hate_speech, h, h1, h2, h2i]
  · simp [analyze_clause_for_hate_speech, h]

/-- C10 witness: with probabilities `(1/4, 3/4)` and threshold `3/10`. -/
theorem C10_threshold_equivalence_witness :
    (analyze_clause_for_hate_speech (1 / 4) (3 / 4) (3 / 10) = true
      ↔ ((1 : ℚ) / 4 < 3 / 4 ∧ (3 : ℚ) / 10 ≤ 3 / 4))
    ∧ ((1 : ℚ) / 4 < 3 / 4 → (1 : ℚ) / 2 ≤ 3 / 4)
    ∧ ((3 : ℚ) / 10 ≤ 1 / 2 →
        analyze_clause_for_hate_speech (1 / 4) (3 / 4) (3 / 10)
          = analyze_clause_for_hate_speech (1 / 4) (3 / 4) (1 / 2)) :=
  C10_threshold_equivalence (1 / 4) (3 / 4) (3 / 10) (by norm_num)
